import Mathlib

/-!
Verification of the FAT filesystem volume adapter of this repository
(features/filesystem/fat/FATFileSystem.cpp) and of the SlicingBlockDevice
bound convention exercised by features/TESTS/filesystem/util_block_device.

The C++ code is shallowly embedded: the process-wide volume table `_ffs`
(an array of `_VOLUMES` pointers, NULL meaning empty) together with the
instance field `_id` (-1 meaning unmounted) form one explicit state value;
calls into the external FatFs engine (`f_mount`, `f_open`, ...) are modelled
by an engine-result parameter (`FRESULT`, 0 = `FR_OK`), since the engine is an
external collaborator consumed through its driver surface.  Machine words:
byte addresses/lengths computed by the driver callbacks are 64-bit
(`bd_size_t`), values stored through the ioctl `DWORD*` out-parameter are
32-bit; both reductions are written as explicit `% 2 ^ w`.
-/

/-- A block device as seen by the adapter: its total byte size, its program
(write) unit in bytes, and its `read`/`write` entry points.  `readFn a l`
(resp. `writeFn a l`) is the integer error code the device returns for a
byte-addressed read (write) of `l` bytes at address `a` (0 = success). -/
structure BlockDevice where
  size : Nat
  write_size : Nat
  readFn : Nat → Nat → Int
  writeFn : Nat → Nat → Int

/-- The process-wide volume table `_ffs`: one optional device per slot.
The list length is the compile-time capacity `_VOLUMES`. -/
abbrev VolumeTable := List (Option BlockDevice)

/-- FatFs driver result codes (ChaN diskio.h). -/
inductive DRESULT where
  | RES_OK
  | RES_ERROR
  | RES_WRPRT
  | RES_NOTRDY
  | RES_PARERR
deriving DecidableEq, Repr

/-- FatFs engine result code; 0 is `FR_OK`. -/
abbrev FRESULT := Nat

/-- ChaN diskio.h ioctl command codes (external header, fixed values). -/
def CTRL_SYNC : Nat := 0

def GET_SECTOR_COUNT : Nat := 1

def GET_SECTOR_SIZE : Nat := 2

def GET_BLOCK_SIZE : Nat := 3

/-- `disk_status` (FATFileSystem.cpp): returns `RES_OK` unconditionally,
ignoring the table. -/
def disk_status (ffs : VolumeTable) (pdrv : Nat) : DRESULT :=
  DRESULT.RES_OK

/-- `disk_read` (FATFileSystem.cpp): looks up `_ffs[pdrv]`, takes the
device's `get_write_size()` as the sector size, forwards the byte pair
`(sector*ssize, count*ssize)` (64-bit arithmetic) to the device's `read`,
and maps a non-zero error to `RES_PARERR`.  The C code dereferences the
slot without a NULL check, so an empty slot is undefined: `none`. -/
def disk_read (ffs : VolumeTable) (pdrv sector count : Nat) : Option DRESULT :=
  match ffs.getD pdrv none with
  | none => none
  | some bd =>
      let ssize := bd.write_size
      let err := bd.readFn ((sector * ssize) % 2 ^ 64) ((count * ssize) % 2 ^ 64)
      some (if err ≠ 0 then DRESULT.RES_PARERR else DRESULT.RES_OK)

/-- `disk_write` (FATFileSystem.cpp): the same translation as `disk_read`,
forwarded to the device's `write`. -/
def disk_write (ffs : VolumeTable) (pdrv sector count : Nat) : Option DRESULT :=
  match ffs.getD pdrv none with
  | none => none
  | some bd =>
      let ssize := bd.write_size
      let err := bd.writeFn ((sector * ssize) % 2 ^ 64) ((count * ssize) % 2 ^ 64)
      some (if err ≠ 0 then DRESULT.RES_PARERR else DRESULT.RES_OK)

/-- `disk_ioctl` (FATFileSystem.cpp).  The result pairs the `DRESULT` with
the `DWORD` value stored through `buff` (when one is stored).  `CTRL_SYNC`,
`GET_SECTOR_COUNT` and `GET_SECTOR_SIZE` answer `RES_NOTRDY` on an empty
slot; `GET_BLOCK_SIZE` stores 1 and answers `RES_OK` without looking at the
slot; any other command is `RES_PARERR`. -/
def disk_ioctl (ffs : VolumeTable) (pdrv cmd : Nat) : DRESULT × Option Nat :=
  if cmd = CTRL_SYNC then
    match ffs.getD pdrv none with
    | none => (DRESULT.RES_NOTRDY, none)
    | some _ => (DRESULT.RES_OK, none)
  else if cmd = GET_SECTOR_COUNT then
    match ffs.getD pdrv none with
    | none => (DRESULT.RES_NOTRDY, none)
    | some bd => (DRESULT.RES_OK, some ((bd.size / bd.write_size) % 2 ^ 32))
  else if cmd = GET_SECTOR_SIZE then
    match ffs.getD pdrv none with
    | none => (DRESULT.RES_NOTRDY, none)
    | some bd => (DRESULT.RES_OK, some (bd.write_size % 2 ^ 32))
  else if cmd = GET_BLOCK_SIZE then
    (DRESULT.RES_OK, some 1)
  else
    (DRESULT.RES_PARERR, none)

/-- The mutable state a `FATFileSystem` instance acts on: the global volume
table `_ffs` plus the instance's `_id` (-1 = the unmounted sentinel). -/
structure FATFileSystem where
  ffs : VolumeTable
  id : Int

/-- Index of the first empty slot, mirroring the scan loop
`for (i = 0; i < _VOLUMES; i++) if (!_ffs[i]) ...` in `mount`. -/
def firstFree : VolumeTable → Option Nat
  | [] => none
  | none :: _ => some 0
  | some _ :: rest => (firstFree rest).map (· + 1)

/-- `FATFileSystem::mount` (FATFileSystem.cpp:124).  Fails (keeping the
state) when the instance is already mounted or when no slot is free.
Otherwise it claims the first free slot `i` (`_id = i; _ffs[_id] = bd`) and
calls `f_mount`; the return value is 0 exactly when the engine result
`engineRes` is `FR_OK`, but the slot and `_id` are kept in either case —
there is no cleanup path on engine failure.  `force` is only forwarded to
`f_mount`, so it is absorbed by `engineRes`. -/
def FATFileSystem.mount (s : FATFileSystem) (engineRes : FRESULT)
    (bd : BlockDevice) (force : Bool) : Int × FATFileSystem :=
  if s.id ≠ -1 then
    (-1, s)
  else
    match firstFree s.ffs with
    | some i =>
        (if engineRes = 0 then 0 else -1, ⟨s.ffs.set i (some bd), Int.ofNat i⟩)
    | none => (-1, s)

/-- `FATFileSystem::unmount` (FATFileSystem.cpp:149).  Fails when already
unmounted; otherwise calls `f_mount(NULL, _fsid, 0)` and then clears
`_ffs[_id]` and resets `_id = -1` unconditionally, whatever the engine
result was; the return value alone reflects `engineRes`. -/
def FATFileSystem.unmount (s : FATFileSystem) (engineRes : FRESULT) :
    Int × FATFileSystem :=
  if s.id = -1 then
    (-1, s)
  else
    (if engineRes = 0 then 0 else -1, ⟨s.ffs.set s.id.toNat none, -1⟩)

/-- `FATFileSystem::sync` (FATFileSystem.cpp:164): returns -1 when the
instance is unmounted, otherwise 0 without calling the engine (writes are
synchronous).  The state is not changed. -/
def FATFileSystem.sync (s : FATFileSystem) : Int :=
  if s.id = -1 then -1 else 0

/-- POSIX open flags (newlib values used by the mbed toolchains; `open`
only tests these bits). -/
def O_RDONLY : Nat := 0

def O_WRONLY : Nat := 1

def O_RDWR : Nat := 2

def O_APPEND : Nat := 8

def O_CREAT : Nat := 512

def O_TRUNC : Nat := 1024

/-- FatFs open-mode bits (ChaN ff.h, external header, fixed values). -/
def FA_READ : Nat := 1

def FA_WRITE : Nat := 2

def FA_CREATE_NEW : Nat := 4

def FA_CREATE_ALWAYS : Nat := 8

def FA_OPEN_ALWAYS : Nat := 16

/-- The POSIX-flags → FatFs open-mode computation of `FATFileSystem::open`
(FATFileSystem.cpp:205-220), transcribed branch for branch. -/
def fat_openmode (flags : Nat) : Nat :=
  let openmode :=
    if flags &&& O_RDWR ≠ 0 then FA_READ ||| FA_WRITE
    else if flags &&& O_WRONLY ≠ 0 then FA_WRITE
    else FA_READ
  if flags &&& O_CREAT ≠ 0 then
    if flags &&& O_TRUNC ≠ 0 then openmode ||| FA_CREATE_ALWAYS
    else openmode ||| FA_OPEN_ALWAYS
  else openmode

/-- The observable outcome of `FATFileSystem::open`
(FATFileSystem.cpp:199-236): `none` when `f_open` fails (`engineRes ≠ 0`),
otherwise the open mode passed to `f_open` together with the file position
after the call — `f_open` leaves the position at 0 and the code then runs
`f_lseek(&fh, fh.fsize)` exactly when `O_APPEND` is set. -/
def open_file (flags : Nat) (engineRes : FRESULT) (fsize : Nat) :
    Option (Nat × Nat) :=
  if engineRes ≠ 0 then none
  else some (fat_openmode flags, if flags &&& O_APPEND ≠ 0 then fsize else 0)

/-- Modelled from the spec: the SlicingBlockDevice implementation is not
under src/ (only its test is).  Per the spec it holds a reference to one
underlying device plus resolved logical bounds `start` and `stop`
(exclusive end). -/
structure SlicingBlockDevice where
  underlying : BlockDevice
  start : Nat
  stop : Nat

/-- Modelled from the spec: a bound given as a negative offset means "this
many bytes before the underlying device's end", resolved against
`underlying.size()` at construction time. -/
def sliceBound (u : BlockDevice) (b : Int) : Nat :=
  if b < 0 then ((u.size : Int) + b).toNat else b.toNat

/-- Modelled from the spec: construction from an absolute (or negative)
`start, end` bound pair. -/
def slice2 (u : BlockDevice) (s e : Int) : SlicingBlockDevice :=
  ⟨u, sliceBound u s, sliceBound u e⟩

/-- Modelled from the spec: construction from a single negative `start`,
meaning "the last `|start|` bytes"; the end bound is the underlying
device's end. -/
def slice1 (u : BlockDevice) (s : Int) : SlicingBlockDevice :=
  ⟨u, sliceBound u s, u.size⟩

/-- Modelled from the spec: `size()` reports `end − start`. -/
def SlicingBlockDevice.size (sl : SlicingBlockDevice) : Nat :=
  sl.stop - sl.start

/-- Modelled from the spec: `read` adds `start` to the supplied address and
forwards to the underlying device; an out-of-range request fails with a
bounds error (a non-zero code) without touching the underlying device. -/
def SlicingBlockDevice.read (sl : SlicingBlockDevice) (addr len : Nat) : Int :=
  if addr + len ≤ sl.stop - sl.start then sl.underlying.readFn (sl.start + addr) len
  else -1

/-- Modelled from the spec: `write`, as `read`. -/
def SlicingBlockDevice.write (sl : SlicingBlockDevice) (addr len : Nat) : Int :=
  if addr + len ≤ sl.stop - sl.start then sl.underlying.writeFn (sl.start + addr) len
  else -1

/-- A concrete 4 KiB, 512-byte-sector device used as a witness input. -/
def bd0 : BlockDevice :=
  { size := 4096, write_size := 512, readFn := fun _ _ => 0, writeFn := fun _ _ => 0 }

/-- A second concrete device used as a witness input. -/
def bd1 : BlockDevice :=
  { size := 1024, write_size := 256, readFn := fun _ _ => 1, writeFn := fun _ _ => 1 }

/-- A one-slot table holding `bd0`. -/
def ffs0 : VolumeTable := [some bd0]

/-! ## Helper lemmas -/

/-- Setting slot `i` of a table and reading slot `i` back gives the new
value, provided `i` is in range. -/
theorem getD_set_self {α : Type} (l : List α) (i : Nat) (a d : α)
    (h : i < l.length) : (l.set i a).getD i d = a := by
  induction l generalizing i with
  | nil => simp at h
  | cons x xs ih =>
      cases i with
      | zero => rfl
      | succ n => simpa using ih n (by simpa using h)

/-- A table whose every slot is occupied has no free slot. -/
theorem firstFree_eq_none (l : VolumeTable) (h : ∀ x ∈ l, x ≠ none) :
    firstFree l = none := by
  induction l with
  | nil => rfl
  | cons x xs ih =>
      cases x with
      | none => exact absurd rfl (h none (List.mem_cons_self _ _))
      | some b =>
          have : firstFree xs = none :=
            ih (fun y hy => h y (List.mem_cons_of_mem _ hy))
          simp [firstFree, this]

/-! ## C1 -/

/-- C1: on a mounted instance (`_id ≠ -1`, holding a valid slot index),
`unmount` resets the volume identifier to the unmounted sentinel -1 and
clears the instance's table slot, for every engine result `engineRes` —
i.e. whether the engine's unmount call succeeds or fails. -/
theorem unmount_clears_slot (s : FATFileSystem) (engineRes : FRESULT)
    (h : s.id ≠ -1) (hl : s.id.toNat < s.ffs.length) :
    (s.unmount engineRes).2.id = -1 ∧
    (s.unmount engineRes).2.ffs.getD s.id.toNat none = none := by
  unfold FATFileSystem.unmount
  rw [if_neg h]
  exact ⟨rfl, getD_set_self s.ffs s.id.toNat none none hl⟩

/-- Witness for C1 at a concrete mounted state and a failing engine result
(`engineRes = 7 ≠ FR_OK`). -/
theorem unmount_clears_slot_witness :
    (FATFileSystem.unmount ⟨ffs0, 0⟩ 7).2.id = -1 ∧
    (FATFileSystem.unmount ⟨ffs0, 0⟩ 7).2.ffs.getD 0 none = none :=
  unmount_clears_slot ⟨ffs0, 0⟩ 7 (by decide) (by decide)

/-! ## C9 -/

/-- C9: `disk_status` answers `RES_OK` for every table and every slot
index — in particular for a slot holding no device — and never answers
`RES_NOTRDY`. -/
theorem disk_status_always_ok (ffs : VolumeTable) (pdrv : Nat) :
    disk_status ffs pdrv = DRESULT.RES_OK ∧
    disk_status ffs pdrv ≠ DRESULT.RES_NOTRDY :=
  ⟨rfl, fun h => DRESULT.noConfusion h⟩

/-! ## C4 -/

/-- C4: when the instance is unmounted and every table slot is occupied,
`mount` returns -1 and leaves the state — the table, every slot, and the
devices stored in them — completely unchanged. -/
theorem mount_full_table (s : FATFileSystem) (engineRes : FRESULT)
    (bd : BlockDevice) (force : Bool) (h0 : s.id = -1)
    (hfull : ∀ x ∈ s.ffs, x ≠ none) :
    s.mount engineRes bd force = (-1, s) := by
  unfold FATFileSystem.mount
  rw [if_neg (by simp [h0]), firstFree_eq_none s.ffs hfull]

/-- Witness for C4: mounting `bd1` on an unmounted instance over a full
one-slot table fails and leaves the state unchanged. -/
theorem mount_full_table_witness :
    FATFileSystem.mount ⟨ffs0, -1⟩ 0 bd1 false = (-1, ⟨ffs0, -1⟩) :=
  mount_full_table ⟨ffs0, -1⟩ 0 bd1 false rfl
    (fun x hx => by
      rw [ffs0, List.mem_singleton] at hx
      subst hx
      exact fun hc => Option.noConfusion hc)

/-! ## C2 -/

/-- Counterexample to C2 as stated: on the unmounted instance over the
empty one-slot table, with a failing engine result (`engineRes = 1`),
`mount` returns -1 but the slot still holds the device and the volume
identifier is still set to the slot index — the slot is not released and
the identifier is not reset. -/
theorem mount_engine_fail_cex :
    (FATFileSystem.mount ⟨[none], -1⟩ 1 bd0 false).1 = -1 ∧
    (FATFileSystem.mount ⟨[none], -1⟩ 1 bd0 false).2.ffs.getD 0 none = some bd0 ∧
    (FATFileSystem.mount ⟨[none], -1⟩ 1 bd0 false).2.id = 0 ∧
    ¬((FATFileSystem.mount ⟨[none], -1⟩ 1 bd0 false).2.ffs.getD 0 none = none ∧
      (FATFileSystem.mount ⟨[none], -1⟩ 1 bd0 false).2.id = -1) :=
  ⟨rfl, rfl, rfl, fun h => Option.noConfusion h.1⟩

/-- C2 amended: when `mount` on an unmounted instance finds a free slot
`i` and the engine mount call fails, it returns -1 but keeps the device
stored in slot `i` and keeps the volume identifier set to `i`; the slot is
not released — only a later `unmount` clears it. -/
theorem mount_engine_fail_keeps_slot (s : FATFileSystem) (engineRes : FRESULT)
    (bd : BlockDevice) (force : Bool) (i : Nat) (h0 : s.id = -1)
    (hi : firstFree s.ffs = some i) (hres : engineRes ≠ 0) :
    s.mount engineRes bd force = (-1, ⟨s.ffs.set i (some bd), Int.ofNat i⟩) := by
  unfold FATFileSystem.mount
  rw [if_neg (by simp [h0]), hi, if_neg hres]

/-- Witness for the amended C2 at the one-slot empty table with a failing
engine result. -/
theorem mount_engine_fail_keeps_slot_witness :
    FATFileSystem.mount ⟨[none], -1⟩ 1 bd0 false =
      (-1, ⟨[some bd0], Int.ofNat 0⟩) :=
  mount_engine_fail_keeps_slot ⟨[none], -1⟩ 1 bd0 false 0 rfl rfl (by decide)

/-! ## C5 -/

/-- Counterexample to C5 as stated: on an unmounted instance (a reachable
state — it is the initial state), `sync` returns -1, not 0. -/
theorem sync_unmounted_cex :
    FATFileSystem.sync ⟨[none, none, none, none], -1⟩ = -1 ∧
    FATFileSystem.sync ⟨[none, none, none, none], -1⟩ ≠ 0 :=
  ⟨rfl, by decide⟩

/-- C5 amended: `sync` returns 0 (success) on every mounted instance —
there is nothing to flush, the engine is not called — and returns -1 on an
unmounted instance. -/
theorem sync_mounted_succeeds (s : FATFileSystem) :
    (s.id ≠ -1 → s.sync = 0) ∧ (s.id = -1 → s.sync = -1) := by
  unfold FATFileSystem.sync
  constructor
  · intro h
    rw [if_neg h]
  · intro h
    rw [if_pos h]

/-- Witness for the amended C5 at a concrete mounted state. -/
theorem sync_mounted_succeeds_witness :
    FATFileSystem.sync ⟨ffs0, 0⟩ = 0 :=
  (sync_mounted_succeeds ⟨ffs0, 0⟩).1 (by decide)

/-! ## C3 -/

/-- C3: when slot `pdrv` holds device `bd`, the driver read and write
callbacks translate the `(sector, count)` pair into the byte pair
`(sector * bd.write_size, count * bd.write_size)` — the sector size is the
device's own `write_size()`, and nothing else enters the translation — and
forward exactly that pair to the device's `read`/`write`, mapping a
non-zero device error to `RES_PARERR` and success to `RES_OK`.  The two
bound hypotheses discharge the 64-bit reduction of `bd_size_t`
arithmetic. -/
theorem disk_rw_translation (ffs : VolumeTable) (pdrv sector count : Nat)
    (bd : BlockDevice) (hbd : ffs.getD pdrv none = some bd)
    (hr : sector * bd.write_size < 2 ^ 64)
    (hc : count * bd.write_size < 2 ^ 64) :
    disk_read ffs pdrv sector count =
      some (if bd.readFn (sector * bd.write_size) (count * bd.write_size) ≠ 0
        then DRESULT.RES_PARERR else DRESULT.RES_OK) ∧
    disk_write ffs pdrv sector count =
      some (if bd.writeFn (sector * bd.write_size) (count * bd.write_size) ≠ 0
        then DRESULT.RES_PARERR else DRESULT.RES_OK) := by
  unfold disk_read disk_write
  rw [hbd]
  have hr' : sector * bd.write_size % 18446744073709551616 = sector * bd.write_size :=
    Nat.mod_eq_of_lt hr
  have hc' : count * bd.write_size % 18446744073709551616 = count * bd.write_size :=
    Nat.mod_eq_of_lt hc
  simp [hr', hc']

/-- Witness for C3: reading and writing 2 sectors at sector 3 of the
512-byte-sector device `bd0` forwards byte address 1536 and byte length
1024 and reports `RES_OK` (the device accepts). -/
theorem disk_rw_translation_witness :
    disk_read ffs0 0 3 2 = some DRESULT.RES_OK ∧
    disk_write ffs0 0 3 2 = some DRESULT.RES_OK := by
  have h := disk_rw_translation ffs0 0 3 2 bd0 rfl (by decide) (by decide)
  simpa [bd0] using h

/-! ## C6 -/

/-- Counterexample to C6 as stated: the generic-block-size query against a
slot holding no device does not report "device not ready" — it reports
`RES_OK` and stores the default value 1. -/
theorem disk_ioctl_block_size_cex :
    ([none] : VolumeTable).getD 0 none = none ∧
    disk_ioctl [none] 0 GET_BLOCK_SIZE = (DRESULT.RES_OK, some 1) ∧
    (disk_ioctl [none] 0 GET_BLOCK_SIZE).1 ≠ DRESULT.RES_NOTRDY := by
  refine ⟨rfl, rfl, ?_⟩
  decide

/-- C6 amended: the sync, sector-count and sector-size queries report
"device not ready" on an empty slot, but the generic-block-size query
always reports `RES_OK` with value 1 without consulting the slot; when the
slot holds a device, the sector count is reported as
`size() / write_size()` and the sector size as `write_size()` (exactly,
whenever the value fits the 32-bit `DWORD` out-parameter). -/
theorem disk_ioctl_behavior (ffs : VolumeTable) (pdrv : Nat) :
    (ffs.getD pdrv none = none →
      disk_ioctl ffs pdrv CTRL_SYNC = (DRESULT.RES_NOTRDY, none) ∧
      disk_ioctl ffs pdrv GET_SECTOR_COUNT = (DRESULT.RES_NOTRDY, none) ∧
      disk_ioctl ffs pdrv GET_SECTOR_SIZE = (DRESULT.RES_NOTRDY, none)) ∧
    disk_ioctl ffs pdrv GET_BLOCK_SIZE = (DRESULT.RES_OK, some 1) ∧
    (∀ bd : BlockDevice, ffs.getD pdrv none = some bd →
      bd.size / bd.write_size < 2 ^ 32 → bd.write_size < 2 ^ 32 →
      disk_ioctl ffs pdrv CTRL_SYNC = (DRESULT.RES_OK, none) ∧
      disk_ioctl ffs pdrv GET_SECTOR_COUNT =
        (DRESULT.RES_OK, some (bd.size / bd.write_size)) ∧
      disk_ioctl ffs pdrv GET_SECTOR_SIZE =
        (DRESULT.RES_OK, some bd.write_size)) := by
  refine ⟨fun h => ⟨?_, ?_, ?_⟩, ?_, fun bd h hcnt hsz => ⟨?_, ?_, ?_⟩⟩
  · unfold disk_ioctl
    rw [if_pos rfl, h]
  · unfold disk_ioctl
    rw [if_neg (by decide), if_pos rfl, h]
  · unfold disk_ioctl
    rw [if_neg (by decide), if_neg (by decide), if_pos rfl, h]
  · unfold disk_ioctl
    rw [if_neg (by decide), if_neg (by decide), if_neg (by decide), if_pos rfl]
  · unfold disk_ioctl
    rw [if_pos rfl, h]
  · unfold disk_ioctl
    rw [if_neg (by decide), if_pos rfl, h]
    show (DRESULT.RES_OK, some (bd.size / bd.write_size % 2 ^ 32)) =
      (DRESULT.RES_OK, some (bd.size / bd.write_size))
    rw [Nat.mod_eq_of_lt hcnt]
  · unfold disk_ioctl
    rw [if_neg (by decide), if_neg (by decide), if_pos rfl, h]
    show (DRESULT.RES_OK, some (bd.write_size % 2 ^ 32)) =
      (DRESULT.RES_OK, some bd.write_size)
    rw [Nat.mod_eq_of_lt hsz]

/-- Witness for the amended C6: the empty slot of `[none]` answers
not-ready to the sync query, and the slot of `ffs0` holding `bd0` reports
a sector count of 4096 / 512 = 8. -/
theorem disk_ioctl_behavior_witness :
    disk_ioctl [none] 0 CTRL_SYNC = (DRESULT.RES_NOTRDY, none) ∧
    disk_ioctl ffs0 0 GET_SECTOR_COUNT = (DRESULT.RES_OK, some 8) :=
  ⟨((disk_ioctl_behavior [none] 0).1 rfl).1,
    ((disk_ioctl_behavior ffs0 0).2.2 bd0 rfl (by decide) (by decide)).2.1⟩

/-! ## C7 -/

/-- C7: the POSIX-flags → FatFs open-mode translation of `open` is the
fixed mapping the claim states — `O_RDWR` gives read+write access,
`O_WRONLY` without `O_RDWR` gives write access, anything else read access;
`O_CREAT` with `O_TRUNC` selects create-always, `O_CREAT` without
`O_TRUNC` open-always (the access part read through the `FA_READ|FA_WRITE`
mask, the creation part through the `FA_CREATE_ALWAYS|FA_OPEN_ALWAYS`
mask) — and with `O_APPEND` set, a successful open (`engineRes = 0`) ends
with the file position at the end of the file (`fsize`). -/
theorem open_flag_translation (flags fsize : Nat) :
    (flags &&& O_RDWR ≠ 0 →
      fat_openmode flags &&& (FA_READ ||| FA_WRITE) = FA_READ ||| FA_WRITE) ∧
    (flags &&& O_RDWR = 0 → flags &&& O_WRONLY ≠ 0 →
      fat_openmode flags &&& (FA_READ ||| FA_WRITE) = FA_WRITE) ∧
    (flags &&& O_RDWR = 0 → flags &&& O_WRONLY = 0 →
      fat_openmode flags &&& (FA_READ ||| FA_WRITE) = FA_READ) ∧
    (flags &&& O_CREAT ≠ 0 → flags &&& O_TRUNC ≠ 0 →
      fat_openmode flags &&& (FA_CREATE_ALWAYS ||| FA_OPEN_ALWAYS) =
        FA_CREATE_ALWAYS) ∧
    (flags &&& O_CREAT ≠ 0 → flags &&& O_TRUNC = 0 →
      fat_openmode flags &&& (FA_CREATE_ALWAYS ||| FA_OPEN_ALWAYS) =
        FA_OPEN_ALWAYS) ∧
    (flags &&& O_APPEND ≠ 0 →
      open_file flags 0 fsize = some (fat_openmode flags, fsize)) := by
  by_cases h1 : flags &&& O_RDWR = 0 <;>
    by_cases h2 : flags &&& O_WRONLY = 0 <;>
      by_cases h3 : flags &&& O_CREAT = 0 <;>
        by_cases h4 : flags &&& O_TRUNC = 0 <;>
          by_cases h5 : flags &&& O_APPEND = 0 <;>
            (refine ⟨?_, ?_, ?_, ?_, ?_, ?_⟩ <;>
              simp [fat_openmode, open_file, h1, h2, h3, h4, h5] <;>
                try decide)

/-- Witness for C7 at `flags = O_RDWR ||| O_APPEND ||| O_CREAT ||| O_TRUNC`
(= 1546) and a successful open of a 42-byte file. -/
theorem open_flag_translation_witness :
    fat_openmode 1546 &&& (FA_READ ||| FA_WRITE) = FA_READ ||| FA_WRITE ∧
    fat_openmode 1546 &&& (FA_CREATE_ALWAYS ||| FA_OPEN_ALWAYS) =
      FA_CREATE_ALWAYS ∧
    open_file 1546 0 42 = some (fat_openmode 1546, 42) :=
  ⟨(open_flag_translation 1546 42).1 (by decide),
    (open_flag_translation 1546 42).2.2.2.1 (by decide) (by decide),
    (open_flag_translation 1546 42).2.2.2.2.2 (by decide)⟩

/-! ## C10 -/

/-- C10: for flags containing `O_TRUNC` but not `O_CREAT`, the computed
open mode carries none of the FatFs creation/truncation bits
(`FA_CREATE_NEW`, `FA_CREATE_ALWAYS`, `FA_OPEN_ALWAYS`): the open is a
plain open of the existing file. -/
theorem trunc_without_creat (flags : Nat) (ht : flags &&& O_TRUNC ≠ 0)
    (hc : flags &&& O_CREAT = 0) :
    fat_openmode flags &&&
      (FA_CREATE_NEW ||| FA_CREATE_ALWAYS ||| FA_OPEN_ALWAYS) = 0 := by
  unfold fat_openmode
  rw [if_neg (by simp [hc])]
  split
  · decide
  · split <;> decide

/-- Witness for C10 at `flags = O_WRONLY ||| O_TRUNC` (= 1025). -/
theorem trunc_without_creat_witness :
    fat_openmode 1025 &&&
      (FA_CREATE_NEW ||| FA_CREATE_ALWAYS ||| FA_OPEN_ALWAYS) = 0 :=
  trunc_without_creat 1025 (by decide) (by decide)

/-! ## C8 -/

/-- C8: for `0 < k ≤ U.size()`, the slice constructed from the single
negative bound `-k` is the very same device as the one constructed from
the absolute bounds `[U.size() - k, U.size())`: equal as structures, with
the same `size()` and the same `read`/`write` address translation at every
request. -/
theorem slice_neg_equiv (u : BlockDevice) (k : Nat) (h0 : 0 < k)
    (hk : k ≤ u.size) :
    slice1 u (-(k : Int)) = slice2 u ((u.size : Int) - (k : Int)) (u.size : Int) ∧
    (slice1 u (-(k : Int))).size =
      (slice2 u ((u.size : Int) - (k : Int)) (u.size : Int)).size ∧
    ∀ a n : Nat,
      (slice1 u (-(k : Int))).read a n =
        (slice2 u ((u.size : Int) - (k : Int)) (u.size : Int)).read a n ∧
      (slice1 u (-(k : Int))).write a n =
        (slice2 u ((u.size : Int) - (k : Int)) (u.size : Int)).write a n := by
  have hmain : slice1 u (-(k : Int)) =
      slice2 u ((u.size : Int) - (k : Int)) (u.size : Int) := by
    unfold slice1 slice2 sliceBound
    have hneg : (-(k : Int)) < 0 := by omega
    have hnn : ¬(((u.size : Int) - (k : Int)) < 0) := by omega
    have hnn2 : ¬(((u.size : Int)) < 0) := by omega
    rw [if_pos hneg, if_neg hnn, if_neg hnn2]
    simp only [SlicingBlockDevice.mk.injEq, true_and]
    refine ⟨?_, ?_⟩ <;> omega
  exact ⟨hmain, by rw [hmain], fun a n => by rw [hmain]; exact ⟨rfl, rfl⟩⟩

/-- Witness for C8: slicing the last 512 bytes of the 4096-byte device
`bd0` by the negative bound -512 is the slice `[3584, 4096)`, and both
translate the read of 512 bytes at local address 0 identically. -/
theorem slice_neg_equiv_witness :
    slice1 bd0 (-(512 : Int)) =
      slice2 bd0 ((bd0.size : Int) - (512 : Int)) (bd0.size : Int) ∧
    (slice1 bd0 (-(512 : Int))).read 0 512 =
      (slice2 bd0 ((bd0.size : Int) - (512 : Int)) (bd0.size : Int)).read 0 512 :=
  ⟨(slice_neg_equiv bd0 512 (by decide) (by decide)).1,
    ((slice_neg_equiv bd0 512 (by decide) (by decide)).2.2 0 512).1⟩
